import Mathlib

/-!
Verification of the marathon-trainer frontend against its specification.

JavaScript strings are modelled as lists of characters; calendar dates and
timestamps are modelled as integer day numbers (midnight-normalised, as the
source normalises with setHours(0,0,0,0)); JavaScript numbers appearing as
integer quantities are modelled as Nat/Int.  Network calls are modelled by
passing the backend's result in as an argument and recording the list of
calls and browser side effects (navigations, cookie removals, console
output) that each handler produces.
-/

set_option maxHeartbeats 1000000

namespace MarathonTrainer

/-! ## String model: digits, numeric parsing, splitting -/

/-- The decimal digit character for a digit value, as produced by JS number
formatting. -/
def digitChar (d : Nat) : Char := Char.ofNat (48 + d)

/-- The numeric value of a decimal digit character (JS Number on a single
digit). -/
def charToDigit (c : Char) : Nat := c.toNat - 48

/-- Decimal rendering of a non-negative integer, as JS template-literal
interpolation produces it. -/
def natToChars (n : Nat) : List Char :=
  if _h : n < 10 then [digitChar n]
  else natToChars (n / 10) ++ [digitChar (n % 10)]
decreasing_by exact Nat.div_lt_self (by omega) (by omega)

/-- JS Number applied to a string of decimal digits (the empty string
parses to 0, matching Number("")). -/
def parseNat (l : List Char) : Nat :=
  l.foldl (fun acc c => acc * 10 + charToDigit c) 0

/-- Helper for splitting: prepend a character onto the first group. -/
def consHead (c : Char) : List (List Char) → List (List Char)
  | [] => [[c]]
  | g :: gs => (c :: g) :: gs

/-- JS String.prototype.split with a single-character separator. -/
def splitOnChar (sep : Char) : List Char → List (List Char)
  | [] => [[]]
  | c :: cs =>
    if c = sep then [] :: splitOnChar sep cs
    else consHead c (splitOnChar sep cs)

/-- JS String.prototype.padStart with pad character '0'. -/
def padStartZero (target : Nat) (l : List Char) : List Char :=
  List.replicate (target - l.length) '0' ++ l

/-! ## frontend/src/lib/utils.ts -/

/-- formatGoalTime from utils.ts: minutes rendered as H:MM:SS with a zero
seconds field. -/
def formatGoalTime (minutes : Nat) : List Char :=
  natToChars (minutes / 60) ++ ':' ::
    (padStartZero 2 (natToChars (minutes % 60)) ++ ':' :: ['0', '0'])

/-- parseTimeToMinutes from utils.ts: split on ':'; three parts give
hours*60 + minutes + Math.round(seconds/60) (Math.round x = floor (x+1/2),
so for a natural s the rounded s/60 is (s+30)/60 in integer division);
two parts give hours*60 + minutes; anything else gives 0. -/
def parseTimeToMinutes (timeStr : List Char) : Nat :=
  match (splitOnChar ':' timeStr).map parseNat with
  | [h, m, s] => h * 60 + m + (s + 30) / 60
  | [h, m] => h * 60 + m
  | _ => 0

/-! ## Lemmas about the string model -/

theorem charToDigit_digitChar (d : Nat) (h : d < 10) :
    charToDigit (digitChar d) = d := by
  interval_cases d <;> rfl

theorem digitChar_ne_colon (d : Nat) (h : d < 10) : digitChar d ≠ ':' := by
  interval_cases d <;> decide

theorem natToChars_mem_digit (n : Nat) :
    ∀ c ∈ natToChars n, ∃ d, d < 10 ∧ c = digitChar d := by
  induction n using Nat.strong_induction_on with
  | _ n ih =>
    intro c hc
    unfold natToChars at hc
    split at hc
    · simp only [List.mem_singleton] at hc
      exact ⟨n, by omega, hc⟩
    · rcases List.mem_append.mp hc with h1 | h2
      · exact ih (n / 10) (Nat.div_lt_self (by omega) (by omega)) c h1
      · simp only [List.mem_singleton] at h2
        exact ⟨n % 10, Nat.mod_lt _ (by omega), h2⟩

theorem colon_not_mem_natToChars (n : Nat) : ':' ∉ natToChars n := by
  intro hmem
  obtain ⟨d, hd, hc⟩ := natToChars_mem_digit n ':' hmem
  exact digitChar_ne_colon d hd hc.symm

theorem parseNat_append_digit (l : List Char) (c : Char) :
    parseNat (l ++ [c]) = parseNat l * 10 + charToDigit c := by
  simp [parseNat, List.foldl_append]

theorem parseNat_natToChars (n : Nat) : parseNat (natToChars n) = n := by
  induction n using Nat.strong_induction_on with
  | _ n ih =>
    unfold natToChars
    split
    · simp [parseNat, charToDigit_digitChar n (by omega)]
    · rw [parseNat_append_digit,
        ih (n / 10) (Nat.div_lt_self (by omega) (by omega)),
        charToDigit_digitChar (n % 10) (Nat.mod_lt _ (by omega))]
      omega

theorem parseNat_replicate_zero_append (k : Nat) (l : List Char) :
    parseNat (List.replicate k '0' ++ l) = parseNat l := by
  induction k with
  | zero => rfl
  | succ k ihk =>
    simpa [parseNat, List.replicate_succ, charToDigit] using ihk

theorem parseNat_padStartZero (target : Nat) (l : List Char) :
    parseNat (padStartZero target l) = parseNat l :=
  parseNat_replicate_zero_append _ l

theorem colon_not_mem_padStartZero (target : Nat) (l : List Char)
    (h : ':' ∉ l) : ':' ∉ padStartZero target l := by
  intro hmem
  rcases List.mem_append.mp hmem with h1 | h2
  · exact absurd (List.eq_of_mem_replicate h1) (by decide)
  · exact h h2

theorem splitOnChar_no_sep (sep : Char) (l : List Char) (h : sep ∉ l) :
    splitOnChar sep l = [l] := by
  induction l with
  | nil => rfl
  | cons a as iha =>
    simp only [List.mem_cons, not_or] at h
    rw [splitOnChar, if_neg (fun hh => h.1 hh.symm), iha h.2]
    rfl

theorem splitOnChar_append_sep (sep : Char) (x rest : List Char)
    (h : sep ∉ x) :
    splitOnChar sep (x ++ sep :: rest) = x :: splitOnChar sep rest := by
  induction x with
  | nil => simp [splitOnChar]
  | cons a as iha =>
    simp only [List.mem_cons, not_or] at h
    rw [List.cons_append, splitOnChar, if_neg (fun hh => h.1 hh.symm),
      iha h.2]
    rfl

/-! ## Shared data model (interfaces User / Profile / weeks) -/

/-- The User record returned by /auth/me (identical in both API client
variants); created_at is an opaque string, has_profile the routing flag. -/
structure User where
  id : Nat
  strava_id : Nat
  email : Option (List Char)
  name : Option (List Char)
  profile_picture : Option (List Char)
  created_at : List Char
  has_profile : Bool
deriving DecidableEq, Repr

/-- A day's workout inside a training-plan week (part_004 DayWorkout).
Quantities that the claims never inspect are kept as opaque model fields:
distance_km is an integer stand-in for the JS number. -/
structure DayWorkout where
  day : List Char
  date : List Char
  workout_type : List Char
  description : List Char
  distance_km : Int
  pace : List Char
  duration_minutes : Nat
  notes : List Char
deriving DecidableEq, Repr

/-- A training-plan week (part_004 WeekPlan): start_date is the week's
start as an integer day number. -/
structure WeekPlan where
  week_number : Nat
  start_date : Int
  focus : List Char
  total_distance_km : Int
  days : List DayWorkout
deriving DecidableEq, Repr

/-- An HTTP response as the API clients observe it: status code and the
optional detail field of the parsed JSON error body (none when the body is
not parseable JSON). -/
structure HttpResponse where
  status : Nat
  detail : Option (List Char)
deriving DecidableEq, Repr

/-- fetch's response.ok: status in the 2xx range. -/
def HttpResponse.ok (r : HttpResponse) : Bool :=
  decide (200 ≤ r.status ∧ r.status < 300)

/-! ## API client, fetchApi variant (part_000)

This variant keeps no client-side token store (cookies are server-managed);
its only side effect on failure is the possible navigation. -/

namespace ApiLib

/-- The typed error thrown by fetchApi (class ApiError). -/
structure ApiError where
  message : List Char
  status : Nat
deriving DecidableEq, Repr

/-- Browser side effects performed by one fetchApi call. -/
structure Effects where
  navigations : List (List Char)
deriving DecidableEq, Repr

/-- fetchApi from part_000: on a non-ok response, navigate to "/" when the
status is 401 and the call required auth, then throw an ApiError whose
message is the body's detail field or "Unknown error" when the body did
not parse.  getMe is the one operation that passes requireAuth := false. -/
def fetchApi (requireAuth : Bool) (resp : HttpResponse) :
    Effects × Except ApiError Unit :=
  if resp.ok then ({ navigations := [] }, .ok ())
  else
    let navs := if resp.status = 401 ∧ requireAuth then [[ '/' ]] else []
    ({ navigations := navs },
      .error ⟨resp.detail.getD "Unknown error".toList, resp.status⟩)

end ApiLib

/-! ## API client, bearer-token variant (part_004 class ApiClient) -/

namespace ApiClient

/-- Browser side effects performed by one ApiClient.request call:
whether the access_token cookie was removed, and the navigations issued. -/
structure Effects where
  tokenRemoved : Bool
  navigations : List (List Char)
deriving DecidableEq, Repr

/-- ApiClient.request from part_004: every operation funnels through this.
On 401 it removes the access_token cookie, navigates to "/", and throws
"Unauthorized"; on any other non-ok status it throws the body's detail or
a generic message. -/
def request (resp : HttpResponse) :
    Effects × Except (List Char) Unit :=
  if resp.ok then ({ tokenRemoved := false, navigations := [] }, .ok ())
  else if resp.status = 401 then
    ({ tokenRemoved := true, navigations := [[ '/' ]] },
      .error "Unauthorized".toList)
  else
    ({ tokenRemoved := false, navigations := [] },
      .error (resp.detail.getD
        ("HTTP error! status: ".toList ++ natToChars resp.status)))

end ApiClient

/-! ## Session provider, useAuth variant (hooks/useAuth.ts and the
AuthProvider of part_006, which share the same state logic) -/

namespace UseAuth

/-- The AuthState record of useAuth.ts. -/
structure AuthState where
  user : Option User
  isLoading : Bool
  isAuthenticated : Bool
  error : Option (List Char)
deriving DecidableEq, Repr

/-- The initial state on mount. -/
def initialState : AuthState :=
  { user := none, isLoading := true, isAuthenticated := false, error := none }

/-- What a rejected authApi.getMe() promise carries: either the typed
ApiError thrown by fetchApi or some other thrown value (network failure,
JSON parse failure). -/
inductive FetchErr where
  | api (e : ApiLib.ApiError)
  | other (message : List Char)

/-- The setState performed when one fetchUser() call settles: the whole
state is replaced from the network result, ignoring the previous state.
The error message is err.message when err instanceof ApiError and the
fixed fallback string otherwise. -/
def fetchUserSet (r : Except FetchErr User) : AuthState :=
  match r with
  | .ok u =>
    { user := some u, isLoading := false, isAuthenticated := true,
      error := none }
  | .error (.api e) =>
    { user := none, isLoading := false, isAuthenticated := false,
      error := some e.message }
  | .error (.other _) =>
    { user := none, isLoading := false, isAuthenticated := false,
      error := some "Failed to fetch user".toList }

/-- The synchronous part of refresh(): setState(prev => {...prev,
isLoading: true}); the subsequent fetchUser() settles later as a separate
event. -/
def refreshStart (s : AuthState) : AuthState :=
  { s with isLoading := true }

/-- One observable event in a session-state history: a refresh() call
(its synchronous setState) or the settling of some outstanding
fetchUser() network call with its result.  The source has no
request-generation guard, so a settle event always applies fetchUserSet
regardless of issue order. -/
inductive Event where
  | refreshCall : Event
  | settle : Except FetchErr User → Event

/-- How one event transforms the session state. -/
def step (s : AuthState) : Event → AuthState
  | .refreshCall => refreshStart s
  | .settle r => fetchUserSet r

/-- Run a history of events from a starting state. -/
def runTrace (s : AuthState) (es : List Event) : AuthState :=
  es.foldl step s

/-- logout() from useAuth.ts: awaits the backend logout call inside a try;
only on success does it clear the state and navigate to "/"; on failure
the catch logs to the console and nothing else happens.  Returns the new
state, the navigations issued, and the console error lines; no error is
re-thrown to the caller. -/
def logout (prev : AuthState) (backendRes : Except (List Char) Unit) :
    AuthState × List (List Char) × List (List Char) :=
  match backendRes with
  | .ok _ =>
    ({ user := none, isLoading := false, isAuthenticated := false,
       error := none }, [[ '/' ]], [])
  | .error e => (prev, [], ["Logout failed: ".toList ++ e])

end UseAuth

/-! ## Session provider, cookie-token variant (part_002 AuthProvider) -/

namespace CookieAuth

/-- The provider state: the user and the access_token cookie the browser
holds (the loading flag is managed separately by the mount effect). -/
structure State where
  user : Option User
  tokenCookie : Option (List Char)
deriving DecidableEq, Repr

/-- What one refreshUser() call produced: the new state, the list of
network calls made to /auth/me (each entry is the backend's answer it
consumed), and the console error lines. -/
structure RefreshOutcome where
  state : State
  meCalls : List (Except (List Char) User)
  consoleErrors : List (List Char)
deriving Repr

/-- refreshUser from part_002: with no access_token cookie it just sets
the user to null and returns without any network request; with a token it
calls api.getMe(), storing the user on success; on failure it logs, sets
the user to null and removes the cookie. -/
def refreshUser (s : State) (getMeRes : Except (List Char) User) :
    RefreshOutcome :=
  match s.tokenCookie with
  | none => ⟨{ s with user := none }, [], []⟩
  | some _ =>
    match getMeRes with
    | .ok u => ⟨{ s with user := some u }, [getMeRes], []⟩
    | .error e =>
      ⟨{ user := none, tokenCookie := none }, [getMeRes],
        ["Failed to fetch user: ".toList ++ e]⟩

/-- logout from part_002: remove the cookie, clear the user, navigate to
"/"; it makes no backend call.  Returns the new state and the navigations
issued. -/
def logout (_s : State) : State × List (List Char) :=
  ({ user := none, tokenCookie := none }, [[ '/' ]])

end CookieAuth

/-! ## Current-week selection (frontend/src/app/dashboard/page.tsx) -/

namespace Dashboard

/-- The loop body of getCurrentWeek: scan the week list for the first week
whose window [start_date, start_date + 7) contains today. -/
def findCurrentWeek (today : Int) : List WeekPlan → Option WeekPlan
  | [] => none
  | w :: ws =>
    if w.start_date ≤ today ∧ today < w.start_date + 7 then some w
    else findCurrentWeek today ws

/-- getCurrentWeek from dashboard/page.tsx (today is already normalised to
midnight by the source): the loop above, then the fallback
weeks[0] || null. -/
def getCurrentWeek (today : Int) (weeks : List WeekPlan) : Option WeekPlan :=
  match findCurrentWeek today weeks with
  | some w => some w
  | none => weeks.head?

end Dashboard

/-! ## Onboarding submission, H:MM:SS variant (part_002 OnboardingForm) -/

namespace Onboarding

/-- A network call issued by a submit handler. -/
inductive ApiCall where
  | createProfile (goal_time_minutes : Nat)
  | generatePlan
  | getMe
deriving DecidableEq, Repr

/-- What one handleSubmit run produced: the calls made (in order), the
error banner, and the router navigations. -/
structure SubmitOutcome where
  calls : List ApiCall
  error : Option (List Char)
  navigations : List (List Char)
deriving DecidableEq, Repr

/-- handleSubmit from part_002: parse the H:MM:SS goal string with
parseTimeToMinutes; throw before any network call when the minutes fall
outside [120, 420] or the race date is not strictly after today's
midnight; otherwise create the profile, refresh the session (one /auth/me
call) and navigate to the dashboard.  A thrown or backend error lands in
the error banner. -/
def handleSubmit (goalTime : List Char) (raceDate today : Int)
    (createRes : Except (List Char) Unit) : SubmitOutcome :=
  let goalTimeMinutes := parseTimeToMinutes goalTime
  if goalTimeMinutes < 120 ∨ goalTimeMinutes > 420 then
    { calls := [],
      error := some "Goal time should be between 2:00:00 and 7:00:00".toList,
      navigations := [] }
  else if raceDate ≤ today then
    { calls := [],
      error := some "Race date must be in the future".toList,
      navigations := [] }
  else
    match createRes with
    | .error e =>
      { calls := [.createProfile goalTimeMinutes], error := some e,
        navigations := [] }
    | .ok _ =>
      { calls := [.createProfile goalTimeMinutes, .getMe], error := none,
        navigations := ["/dashboard".toList] }

/-- handleSubmit of the hours/minutes onboarding variant (part_005): the
goal minutes are parseInt(goalHours)*60 + parseInt(goalMinutes) and the
profile-creation call is issued immediately, with no client-side range or
date check; on success it also generates the plan, refreshes the session
and navigates to the dashboard. -/
def handleSubmitHM (goalHours goalMinutes : Nat) (_raceDate : Int)
    (createRes genRes : Except (List Char) Unit) : SubmitOutcome :=
  let goalTimeMinutes := goalHours * 60 + goalMinutes
  match createRes with
  | .error e =>
    { calls := [.createProfile goalTimeMinutes], error := some e,
      navigations := [] }
  | .ok _ =>
    match genRes with
    | .error e =>
      { calls := [.createProfile goalTimeMinutes, .generatePlan],
        error := some e, navigations := [] }
    | .ok _ =>
      { calls := [.createProfile goalTimeMinutes, .generatePlan, .getMe],
        error := none, navigations := ["/dashboard".toList] }

end Onboarding

/-! ## Route guard (frontend/components/ProtectedRoute.tsx, first variant,
and the cookie variant in frontend/src/components/ProtectedRoute.tsx) -/

namespace Guard

/-- What the guard renders on one pass. -/
inductive Render where
  | spinner
  | nothing
  | content
deriving DecidableEq, Repr

/-- The render body of ProtectedRoute (useAuth variant): spinner while
loading, null when unauthenticated or when a required profile is missing,
otherwise the children wrapped in the navbar chrome. -/
def render (s : UseAuth.AuthState) (requireProfile : Bool) : Render :=
  if s.isLoading then .spinner
  else if s.isAuthenticated = false then .nothing
  else
    match s.user with
    | some u =>
      if requireProfile ∧ u.has_profile = false then .nothing else .content
    | none => .content

/-- The navigations the guard's useEffect issues for a given state. -/
def effectNavs (s : UseAuth.AuthState) (requireProfile : Bool) :
    List (List Char) :=
  if s.isLoading = false then
    if s.isAuthenticated = false then [[ '/' ]]
    else
      match s.user with
      | some u =>
        if requireProfile ∧ u.has_profile = false then ["/onboarding".toList]
        else []
      | none => []
  else []

/-- The render body of the cookie-variant ProtectedRoute: authentication
is user presence, loading is the provider's flag. -/
def renderCookie (user : Option User) (loading : Bool)
    (requireProfile : Bool) : Render :=
  if loading then .spinner
  else
    match user with
    | none => .nothing
    | some u =>
      if requireProfile ∧ u.has_profile = false then .nothing else .content

/-- The navigations the cookie-variant guard's useEffect issues. -/
def effectNavsCookie (user : Option User) (loading : Bool)
    (requireProfile : Bool) : List (List Char) :=
  if ¬ loading then
    match user with
    | none => [[ '/' ]]
    | some u =>
      if requireProfile ∧ u.has_profile = false then ["/onboarding".toList]
      else []
  else []

end Guard

/-! ## Sample data for concrete evaluations -/

/-- A concrete user with a profile. -/
def userA : User :=
  { id := 1, strava_id := 11, email := none, name := some "Ada".toList,
    profile_picture := none, created_at := [], has_profile := true }

/-- A second, distinct concrete user. -/
def userB : User :=
  { id := 2, strava_id := 22, email := none, name := some "Ben".toList,
    profile_picture := none, created_at := [], has_profile := true }

/-- A concrete training week starting at day 0. -/
def week1 : WeekPlan :=
  { week_number := 1, start_date := 0, focus := "Base".toList,
    total_distance_km := 40, days := [] }

/-- A concrete training week starting at day 7. -/
def week2 : WeekPlan :=
  { week_number := 2, start_date := 7, focus := "Build".toList,
    total_distance_km := 45, days := [] }

/-! ## Helper lemmas -/

/-- The getCurrentWeek loop returns the first week whose 7-day window
contains the query date; when the windows are pairwise disjoint and w is a
member whose window contains t, that first match is w itself. -/
theorem findCurrentWeek_eq_of_mem (ws : List WeekPlan)
    (hdisj : ws.Pairwise fun a b => ∀ t : Int,
      ¬ ((a.start_date ≤ t ∧ t < a.start_date + 7) ∧
         (b.start_date ≤ t ∧ t < b.start_date + 7)))
    (w : WeekPlan) (hw : w ∈ ws) (t : Int)
    (ht : w.start_date ≤ t ∧ t < w.start_date + 7) :
    Dashboard.findCurrentWeek t ws = some w := by
  induction ws with
  | nil => cases hw
  | cons a as iha =>
    rw [List.pairwise_cons] at hdisj
    rcases List.mem_cons.mp hw with rfl | hmem
    · rw [Dashboard.findCurrentWeek, if_pos ht]
    · have hna : ¬ (a.start_date ≤ t ∧ t < a.start_date + 7) := by
        intro hcon
        exact hdisj.1 w hmem t ⟨hcon, ht⟩
      rw [Dashboard.findCurrentWeek, if_neg hna]
      exact iha hdisj.2 hmem

/-- The getCurrentWeek loop is List.find? over the window predicate. -/
theorem findCurrentWeek_eq_find (t : Int) (ws : List WeekPlan) :
    Dashboard.findCurrentWeek t ws =
      ws.find? fun w => decide (w.start_date ≤ t ∧ t < w.start_date + 7) := by
  induction ws with
  | nil => rfl
  | cons a as iha =>
    rw [Dashboard.findCurrentWeek, List.find?]
    by_cases h : a.start_date ≤ t ∧ t < a.start_date + 7
    · rw [if_pos h, decide_eq_true h]
    · rw [if_neg h, decide_eq_false h, iha]

/-! ## The claims -/

/-- C9: for every non-negative integer m, parsing the formatted goal time
round-trips: parseTimeToMinutes (formatGoalTime m) = m, because
formatGoalTime emits H:MM:SS with a zero seconds field and
parseTimeToMinutes recombines hours*60 + minutes + round(seconds/60). -/
theorem c9_goal_time_roundtrip (m : Nat) :
    parseTimeToMinutes (formatGoalTime m) = m := by
  have ha : ':' ∉ natToChars (m / 60) := colon_not_mem_natToChars _
  have hb : ':' ∉ padStartZero 2 (natToChars (m % 60)) :=
    colon_not_mem_padStartZero _ _ (colon_not_mem_natToChars _)
  have h1 : splitOnChar ':' (formatGoalTime m) =
      natToChars (m / 60) ::
        splitOnChar ':' (padStartZero 2 (natToChars (m % 60)) ++
          ':' :: ['0', '0']) :=
    splitOnChar_append_sep ':' _ _ ha
  have h2 : splitOnChar ':' (padStartZero 2 (natToChars (m % 60)) ++
      ':' :: ['0', '0']) =
      padStartZero 2 (natToChars (m % 60)) :: splitOnChar ':' ['0', '0'] :=
    splitOnChar_append_sep ':' _ _ hb
  have h3 : splitOnChar ':' ['0', '0'] = [['0', '0']] :=
    splitOnChar_no_sep ':' _ (by decide)
  rw [parseTimeToMinutes, h1, h2, h3]
  simp only [List.map]
  rw [parseNat_natToChars, parseNat_padStartZero, parseNat_natToChars]
  have h0 : parseNat ['0', '0'] = 0 := by decide
  rw [h0]
  omega

/-- C6: a settling fetchUser() call leaves the session state exactly
{user, isLoading:false, isAuthenticated:true, error:null} on success and
exactly {user:null, isLoading:false, isAuthenticated:false,
error:message} on failure (the ApiError's message, or the fixed fallback
for a non-ApiError rejection), whatever state it settles over; a single
settle event consumes exactly one network result, with no retry. -/
theorem c6_fetchUser_terminal_states :
    (∀ (s : UseAuth.AuthState) (u : User),
      UseAuth.step s (.settle (.ok u)) =
        { user := some u, isLoading := false, isAuthenticated := true,
          error := none }) ∧
    (∀ (s : UseAuth.AuthState) (msg : List Char) (st : Nat),
      UseAuth.step s (.settle (.error (.api ⟨msg, st⟩))) =
        { user := none, isLoading := false, isAuthenticated := false,
          error := some msg }) ∧
    (∀ (s : UseAuth.AuthState) (msg : List Char),
      UseAuth.step s (.settle (.error (.other msg))) =
        { user := none, isLoading := false, isAuthenticated := false,
          error := some "Failed to fetch user".toList }) :=
  ⟨fun _ _ => rfl, fun _ _ _ => rfl, fun _ _ => rfl⟩

/-- C10: in the cookie-token session provider, when no access_token
cookie is present refreshUser() sets the user to null and makes no
network request to /auth/me, whatever the backend would have answered. -/
theorem c10_refreshUser_no_token (user0 : Option User)
    (r : Except (List Char) User) :
    CookieAuth.refreshUser ⟨user0, none⟩ r =
      ⟨⟨none, none⟩, [], []⟩ := rfl

/-- C5 counterexample: when the backend logout call fails, logout() of
the useAuth provider leaves the previous state untouched (the user is
still set) and issues no navigation, contradicting the claim that local
state is cleared and a navigation to the root is issued even on backend
failure. -/
theorem c5_logout_failure_cex :
    (UseAuth.logout
      { user := some userA, isLoading := false, isAuthenticated := true,
        error := none } (.error "network down".toList)).1.user = some userA ∧
    (UseAuth.logout
      { user := some userA, isLoading := false, isAuthenticated := true,
        error := none } (.error "network down".toList)).2.1 = [] :=
  ⟨rfl, rfl⟩

/-- C5 amended: in the useAuth provider, logout() clears the local state
and navigates to the root only when the backend logout call succeeds; on
backend failure the error is logged to the console and not surfaced, but
the local state is left unchanged and no navigation occurs.  The
cookie-token provider's logout makes no backend call and always clears
the state and navigates to the root. -/
theorem c5_amended :
    (∀ prev : UseAuth.AuthState,
      UseAuth.logout prev (.ok ()) =
        ({ user := none, isLoading := false, isAuthenticated := false,
           error := none }, [[ '/' ]], [])) ∧
    (∀ (prev : UseAuth.AuthState) (e : List Char),
      UseAuth.logout prev (.error e) =
        (prev, [], ["Logout failed: ".toList ++ e])) ∧
    (∀ s : CookieAuth.State,
      CookieAuth.logout s = (⟨none, none⟩, [[ '/' ]])) :=
  ⟨fun _ => rfl, fun _ _ => rfl, fun _ => rfl⟩

/-- C1 counterexample: a 401 response to getMe — the one fetchApi
operation that passes requireAuth := false — triggers no navigation at
all, refuting the claim that every 401 produces exactly one navigation to
the root regardless of operation. -/
theorem c1_getMe_401_no_redirect_cex :
    (ApiLib.fetchApi false
      { status := 401, detail := some "Not authenticated".toList
      }).1.navigations = [] := rfl

/-- C1 amended: in the bearer-token client, every 401 removes the stored
access_token cookie and issues exactly one navigation to the root, for
every operation; in the fetchApi client, a 401 issues exactly one
navigation to the root only when the call required auth (the default),
while getMe passes requireAuth false and its 401 produces no navigation,
and that client keeps no client-side token store. -/
theorem c1_amended :
    (∀ resp : HttpResponse, resp.status = 401 →
      (ApiClient.request resp).1.tokenRemoved = true ∧
      (ApiClient.request resp).1.navigations = [[ '/' ]]) ∧
    (∀ resp : HttpResponse, resp.status = 401 →
      (ApiLib.fetchApi true resp).1.navigations = [[ '/' ]] ∧
      (ApiLib.fetchApi false resp).1.navigations = []) := by
  constructor
  · intro resp h
    have hok : resp.ok = false := by simp [HttpResponse.ok, h]
    constructor <;> simp [ApiClient.request, hok, h]
  · intro resp h
    have hok : resp.ok = false := by simp [HttpResponse.ok, h]
    constructor <;> simp [ApiLib.fetchApi, hok, h]

/-- C1 amended, witness at a concrete 401 response. -/
theorem c1_amended_witness :
    (ApiClient.request { status := 401, detail := none }).1.navigations =
      [[ '/' ]] :=
  (c1_amended.1 { status := 401, detail := none } rfl).2

/-- C2 counterexample: two overlapping refresh() calls, where the fetch
issued by the second refresh settles first with userB and the fetch
issued by the first refresh settles last with userA: the final state has
isLoading false yet holds userA, stale relative to the most recent
refresh, whose own fetch returned the different user userB. -/
theorem c2_refresh_race_cex :
    (UseAuth.runTrace UseAuth.initialState
      [.refreshCall, .refreshCall, .settle (.ok userB),
        .settle (.ok userA)]).isLoading = false ∧
    (UseAuth.runTrace UseAuth.initialState
      [.refreshCall, .refreshCall, .settle (.ok userB),
        .settle (.ok userA)]).user = some userA ∧
    userA ≠ userB :=
  ⟨rfl, rfl, by decide⟩

/-- C2 amended: refresh() sets isLoading to true synchronously before
re-invoking fetchUser(), but overlapping refresh() calls are not guarded
by any request generation: whichever fetch settles last overwrites the
state unconditionally, so an earlier refresh's fetch settling after a
later one replaces the later result and an observer then sees isLoading
false together with stale user data. -/
theorem c2_amended :
    (∀ s : UseAuth.AuthState,
      (UseAuth.step s .refreshCall).isLoading = true) ∧
    (∀ (s : UseAuth.AuthState) (es : List UseAuth.Event)
      (r : Except UseAuth.FetchErr User),
      UseAuth.runTrace s (es ++ [.settle r]) = UseAuth.fetchUserSet r) ∧
    (UseAuth.runTrace UseAuth.initialState
      [.refreshCall, .refreshCall, .settle (.ok userB),
        .settle (.ok userA)]).user = some userA := by
  refine ⟨fun s => rfl, fun s es r => ?_, rfl⟩
  simp [UseAuth.runTrace, List.foldl_append, UseAuth.step]

/-- C3: for a plan whose weeks occupy disjoint 7-day windows
[start, start+7), the current-week selection returns, for a query date
equal to some week's start_date, that week itself; and for the query date
start_date + 7, the week starting there (the following week), which is not
the same week. -/
theorem c3_current_week_boundaries (ws : List WeekPlan)
    (hdisj : ws.Pairwise fun a b => ∀ t : Int,
      ¬ ((a.start_date ≤ t ∧ t < a.start_date + 7) ∧
         (b.start_date ≤ t ∧ t < b.start_date + 7)))
    (w w' : WeekPlan) (hw : w ∈ ws) (hw' : w' ∈ ws)
    (hstart : w'.start_date = w.start_date + 7) :
    Dashboard.getCurrentWeek w.start_date ws = some w ∧
    Dashboard.getCurrentWeek (w.start_date + 7) ws = some w' ∧ w' ≠ w := by
  have h1 := findCurrentWeek_eq_of_mem ws hdisj w hw w.start_date
    (by omega)
  have h2 := findCurrentWeek_eq_of_mem ws hdisj w' hw' (w.start_date + 7)
    (by omega)
  refine ⟨?_, ?_, ?_⟩
  · simp only [Dashboard.getCurrentWeek, h1]
  · simp only [Dashboard.getCurrentWeek, h2]
  · intro hEq
    rw [hEq] at hstart
    omega

/-- C3 witness: a concrete two-week plan with windows [0,7) and [7,14);
querying at day 0 picks week 1 and querying at day 7 picks week 2. -/
theorem c3_witness :
    Dashboard.getCurrentWeek 0 [week1, week2] = some week1 ∧
    Dashboard.getCurrentWeek 7 [week1, week2] = some week2 := by
  have hdisj : ([week1, week2] : List WeekPlan).Pairwise fun a b =>
      ∀ t : Int,
        ¬ ((a.start_date ≤ t ∧ t < a.start_date + 7) ∧
           (b.start_date ≤ t ∧ t < b.start_date + 7)) := by
    refine List.pairwise_cons.mpr ⟨?_, List.pairwise_singleton _ _⟩
    intro b hb t
    rw [List.mem_singleton] at hb
    subst hb
    simp only [week1, week2]
    omega
  have h := c3_current_week_boundaries [week1, week2] hdisj week1 week2
    (by simp) (by simp) (by decide)
  exact ⟨h.1, h.2.1⟩

/-- C8: the dashboard's current-week derivation is the scan of the week
list for the first week whose interval (inclusive start, exclusive end,
7-day width) contains today, with fallback to the head of the list; when
no week's interval contains today it returns the first week, and on the
empty list it returns nothing. -/
theorem c8_current_week_selection (t : Int) (ws : List WeekPlan) :
    Dashboard.getCurrentWeek t ws =
      ((ws.find? fun w =>
        decide (w.start_date ≤ t ∧ t < w.start_date + 7)).orElse
          fun _ => ws.head?) ∧
    ((∀ w ∈ ws, ¬ (w.start_date ≤ t ∧ t < w.start_date + 7)) →
      Dashboard.getCurrentWeek t ws = ws.head?) ∧
    Dashboard.getCurrentWeek t ([] : List WeekPlan) = none := by
  have hfind := findCurrentWeek_eq_find t ws
  refine ⟨?_, ?_, rfl⟩
  · rw [← hfind]
    cases h : Dashboard.findCurrentWeek t ws <;>
      simp [Dashboard.getCurrentWeek, h, Option.orElse]
  · intro hnone
    have hn : Dashboard.findCurrentWeek t ws = none := by
      rw [hfind, List.find?_eq_none]
      intro w hw
      simpa using hnone w hw
    simp [Dashboard.getCurrentWeek, hn]

/-- C8 witness: on a concrete plan where today (day 20) is past every
window, the selection falls back to the first week. -/
theorem c8_witness :
    Dashboard.getCurrentWeek 20 [week1, week2] = some week1 := by
  have h := (c8_current_week_selection 20 [week1, week2]).2.1
  have hmiss : ∀ w ∈ ([week1, week2] : List WeekPlan),
      ¬ (w.start_date ≤ (20 : Int) ∧ (20 : Int) < w.start_date + 7) := by
    intro w hw
    rw [List.mem_cons, List.mem_singleton] at hw
    rcases hw with hw | hw <;> subst hw <;> decide
  rw [h hmiss]
  rfl

/-- C4 counterexample: the hours/minutes onboarding variant submits a
goal of 8 hours (480 minutes, above 420) and its handler makes the
profile-creation network call with no rejection at all (no error is
set). -/
theorem c4_hm_no_validation_cex :
    (Onboarding.handleSubmitHM 8 0 30 (.ok ()) (.ok ())).calls.head? =
      some (.createProfile 480) ∧
    (Onboarding.handleSubmitHM 8 0 30 (.ok ()) (.ok ())).error = none ∧
    420 < 480 :=
  ⟨rfl, rfl, by omega⟩

/-- C4 amended: the H:MM:SS onboarding form rejects any goal time outside
[120, 420] minutes and any race date not strictly after today before any
network call is made; the hours+minutes onboarding variant performs no
such client-side validation and issues the profile-creation call
unconditionally as its first network call. -/
theorem c4_amended :
    (∀ (goalTime : List Char) (raceDate today : Int)
      (createRes : Except (List Char) Unit),
      (parseTimeToMinutes goalTime < 120 ∨
        420 < parseTimeToMinutes goalTime) →
      Onboarding.handleSubmit goalTime raceDate today createRes =
        { calls := [],
          error :=
            some "Goal time should be between 2:00:00 and 7:00:00".toList,
          navigations := [] }) ∧
    (∀ (goalTime : List Char) (raceDate today : Int)
      (createRes : Except (List Char) Unit),
      120 ≤ parseTimeToMinutes goalTime →
      parseTimeToMinutes goalTime ≤ 420 →
      raceDate ≤ today →
      Onboarding.handleSubmit goalTime raceDate today createRes =
        { calls := [],
          error := some "Race date must be in the future".toList,
          navigations := [] }) ∧
    (∀ (gh gm : Nat) (rd : Int) (cr gr : Except (List Char) Unit),
      (Onboarding.handleSubmitHM gh gm rd cr gr).calls.head? =
        some (.createProfile (gh * 60 + gm))) := by
  refine ⟨?_, ?_, ?_⟩
  · intro goalTime raceDate today createRes h
    rw [Onboarding.handleSubmit.eq_def]
    rw [if_pos h]
  · intro goalTime raceDate today createRes h1 h2 h3
    rw [Onboarding.handleSubmit.eq_def]
    rw [if_neg (by omega), if_pos h3]
  · intro gh gm rd cr gr
    cases cr <;> cases gr <;> rfl

/-- C4 amended, witness: a 1-hour goal (60 minutes, below 120) is
rejected by the H:MM:SS form with no network call. -/
theorem c4_amended_witness :
    Onboarding.handleSubmit "1:00:00".toList 5 3 (.ok ()) =
      { calls := [],
        error :=
          some "Goal time should be between 2:00:00 and 7:00:00".toList,
        navigations := [] } :=
  c4_amended.1 "1:00:00".toList 5 3 (.ok ()) (by decide)

/-- C7: along any session trajectory that never resolves to
authenticated, the route guard never renders the protected children: a
loading state renders only the spinner, and a settled unauthenticated
state renders nothing and issues the navigation to the root.  The same
holds in the cookie-variant guard, where an unauthenticated session is a
null user. -/
theorem c7_guard_never_renders_children (traj : List UseAuth.AuthState)
    (hauth : ∀ s ∈ traj, s.isAuthenticated = false) (rp : Bool) :
    (∀ s ∈ traj, Guard.render s rp ≠ .content ∧
      (s.isLoading = true → Guard.render s rp = .spinner) ∧
      (s.isLoading = false → Guard.render s rp = .nothing ∧
        Guard.effectNavs s rp = [[ '/' ]])) ∧
    (∀ loading : Bool, Guard.renderCookie none loading rp ≠ .content ∧
      (loading = true → Guard.renderCookie none loading rp = .spinner) ∧
      (loading = false → Guard.renderCookie none loading rp = .nothing ∧
        Guard.effectNavsCookie none loading rp = [[ '/' ]])) := by
  constructor
  · intro s hs
    have h := hauth s hs
    cases hl : s.isLoading <;>
      simp [Guard.render, Guard.effectNavs, h, hl]
  · intro loading
    cases loading <;>
      simp [Guard.renderCookie, Guard.effectNavsCookie]

/-- C7 witness: the initial loading state of an unauthenticated session
renders the spinner, not the protected children. -/
theorem c7_witness :
    Guard.render UseAuth.initialState true ≠ Guard.Render.content := by
  have h := (c7_guard_never_renders_children [UseAuth.initialState]
    (by intro s hs; rw [List.mem_singleton] at hs; subst hs; rfl)
    true).1 UseAuth.initialState (by simp)
  exact h.1

end MarathonTrainer
